import Mathlib

/-!
Shallow embedding of the K-Link dashboard core, translated from
`src/app.py` (the `LicenseValidator` and `DatabaseConnector` classes) and
`src/utils/database.py` (the `SmartDatabase` class).

Modelling conventions:
  * `pandas.DataFrame` values become the `DataFrame` structure (ordered
    column names, ordered rows of scalar cells).  Python object identity and
    `.copy()` are modelled with an explicit heap (`Heap`) of `DataFrame`
    cells addressed by `Nat` references; `.copy()` is a fresh allocation.
  * `time.time()` / `datetime.now()` become explicit `now`/`today`
    parameters (integer seconds / day numbers); each call of a method is
    modelled as one instant.
  * library calls that are external to the repository are oracle
    parameters: `hashF` for Python `hash`, `realDb` for
    `pandas.read_sql` (an `Except` models a raised exception), `dec` for
    `base64.b64decode(..).decode('utf-8')` (`none` models a raised
    exception), `md5hex` for `hashlib.md5(..).hexdigest()`, and Booleans
    `tunnelOk`/`dbOk` for whether `SSHTunnelForwarder(..).start()` and
    `pyodbc.connect(..)` succeed.
  * the float arithmetic in the 30-day-trend demo branch
    (`1 + i * 0.02` etc.) is modelled exactly over the integers
    (`(base * (50 + i)) / 50`); no claim depends on those cell values.
-/

namespace Klink

/-! ## Tabular result sets and the heap of DataFrame objects -/

/-- A scalar cell of a result set: integer, string, calendar date (as a day
number) or timestamp (as seconds). -/
inductive Val where
  | i (n : Int)
  | s (t : String)
  | d (day : Int)
  | t (sec : Int)
deriving DecidableEq

/-- A tabular result set: ordered column names and ordered rows. -/
structure DataFrame where
  cols : List String
  rows : List (List Val)
deriving DecidableEq

/-- The heap of live DataFrame objects; a reference is an index into it. -/
abbrev Heap := List DataFrame

/-- Allocate a fresh DataFrame object (models constructing a DataFrame or
calling `.copy()`). -/
def alloc (h : Heap) (df : DataFrame) : Heap × Nat := (h ++ [df], h.length)

/-- Dereference. -/
def readRef (h : Heap) (r : Nat) : DataFrame := h.getD r ⟨[], []⟩

/-- In-place mutation of the object a reference points to. -/
def writeRef (h : Heap) (r : Nat) (df : DataFrame) : Heap := h.set r df

/-! ## String helpers (Python `in`, `str.lower`) -/

/-- Whether the second list is an initial segment of the first. -/
def listStartsWith : List Char → List Char → Bool
  | _, [] => true
  | [], _ :: _ => false
  | a :: as, b :: bs => a == b && listStartsWith as bs

/-- Substring search on character lists. -/
def containsAux : List Char → List Char → Bool
  | [], pat => pat.isEmpty
  | c :: rest, pat => listStartsWith (c :: rest) pat || containsAux rest pat

/-- Python `pat in hay` (substring containment). -/
def containsStr (hay pat : String) : Bool := containsAux hay.data pat.data

/-- Python `str.lower` (ASCII case folding suffices for the SQL texts). -/
def strLower (s : String) : String := String.mk (s.data.map Char.toLower)

/-! ## Demo Data Synthesizer: `SmartDatabase._generate_demo_data` -/

/-- `str(i).zfill(3)` for the stockist codes 1..10. -/
def stockCode (i : Nat) : String :=
  if i < 10 then "STK00" ++ toString i else "STK0" ++ toString i

/-- Demo frame for the today-stats branch. -/
def todayStatsDF : DataFrame :=
  ⟨["total_transactions", "total_bv", "total_tdp", "unique_members", "unique_stockists"],
   [[.i 187, .i 1425000, .i 108750000, .i 94, .i 14]]⟩

/-- Demo frame for the yesterday-stats branch. -/
def yesterdayStatsDF : DataFrame :=
  ⟨["total_transactions", "total_bv", "total_tdp", "unique_members"],
   [[.i 165, .i 1280000, .i 97500000, .i 88]]⟩

/-- Demo frame for the monthly-stats branch. -/
def monthlyStatsDF : DataFrame :=
  ⟨["total_transactions", "total_bv", "total_tdp", "unique_members", "unique_stockists"],
   [[.i 3421, .i 29875000, .i 2240000000, .i 467, .i 52]]⟩

/-- Demo frame for the last-30-days trend branch (float trend modelled
exactly: `int(base * (1 + i * 0.02)) = (base * (50 + i)) / 50`). -/
def trendDF (today : Int) : DataFrame :=
  ⟨["trx_date", "total_transactions", "total_bv", "unique_members"],
   (List.range 30).map (fun i =>
     [.d (today - (29 - (i : Int))),
      .i ((120 * (50 + (i : Int))) / 50),
      .i ((1000000 * (50 + (i : Int))) / 50),
      .i ((80 * (50 + (i : Int))) / 50)])⟩

/-- Demo frame for the top-stockists branch: rows `i = 1..10`. -/
def topStockistsDF : DataFrame :=
  ⟨["stockist_code", "total_bv", "transaction_count", "unique_members"],
   (List.range 10).map (fun j =>
     [.s (stockCode (j + 1)),
      .i (650000 - ((j : Int) + 1) * 55000),
      .i (52 - ((j : Int) + 1) * 4),
      .i (28 - ((j : Int) + 1) * 2)])⟩

/-- Demo frame for the member-join today branch. -/
def joinTodayDF : DataFrame :=
  ⟨["total_join", "active_members"], [[.i 24, .i 187]]⟩

/-- Demo frame for the member-join month branch. -/
def joinMonthDF : DataFrame :=
  ⟨["total_join", "active_members"], [[.i 342, .i 2450]]⟩

/-- Demo frame for the 7-day member-join trend branch. -/
def joinTrendDF (today : Int) : DataFrame :=
  ⟨["join_date", "daily_join", "cumulative_join"],
   (List.range 7).map (fun i =>
     [.d (today - (6 - (i : Int))), .i (15 + (i : Int) * 2), .i (100 + (i : Int) * 25)])⟩

/-- Demo frame for the server-time branch. -/
def serverTimeDF (now : Int) : DataFrame := ⟨["server_time"], [[.t now]]⟩

/-- `SmartDatabase._generate_demo_data(sql)`: substring-based category
dispatch on the lowercased query text, in the source's branch order. -/
def genDemo (today now : Int) (sql : String) : DataFrame :=
  let q := strLower sql
  if containsStr q "today" && containsStr q "newtrh" then todayStatsDF
  else if containsStr q "yesterday" then yesterdayStatsDF
  else if containsStr q "month" && containsStr q "newtrh" then monthlyStatsDF
  else if containsStr q "30 days" || containsStr q "dateadd" then trendDF today
  else if containsStr q "top 10" || containsStr q "stockist" then topStockistsDF
  else if containsStr q "msmemb" || containsStr q "jointdt" then
    if containsStr q "today" then joinTodayDF
    else if containsStr q "month" then joinMonthDF
    else joinTrendDF today
  else if containsStr q "server_time" then serverTimeDF now
  else ⟨[], []⟩

/-- The `total_bv` cell of a demo top-stockists row (column index 1). -/
def bvOf (row : List Val) : Int :=
  match row.getD 1 (Val.i 0) with
  | .i n => n
  | _ => 0

/-! ## `SmartDatabase` state (src/utils/database.py) -/

/-- A cache entry of `SmartDatabase.query_cache`: the key (`hash(sql)`), the
reference to the stored DataFrame object, and the `time.time()` timestamp
recorded at the put. -/
abbrev CacheEntry := Int × Nat × Int

/-- The mutable attributes of a `SmartDatabase` instance.  `tunnel` is
`none` when `self.tunnel is None`, `some started` when a tunnel object is
held (with whether its `start()` completed). -/
structure SDB where
  use_demo : Bool
  use_ssh : Bool
  conn : Bool
  tunnel : Option Bool
  last_query_time : Int
  cache : List CacheEntry
  msg : String
deriving DecidableEq

/-- `SmartDatabase.__init__`: `configOk` is whether reading the secrets
succeeded; on failure the instance starts in demo mode. -/
def mkSDB (configOk ssh : Bool) : SDB :=
  if configOk then
    ⟨false, ssh, false, none, 0, [], "✅ Database config loaded"⟩
  else
    ⟨true, ssh, false, none, 0, [], "⚠️ Using demo data: config error"⟩

/-- The status message set by a caught connection exception (the Python
code appends `str(e)[:80]`; the text is modelled by a constant). -/
def demoMsg : String := "⚠️ Using demo data: connection error"

/-- Dictionary membership lookup `cache_key in self.query_cache`. -/
def cacheFind : List CacheEntry → Int → Option (Nat × Int)
  | [], _ => none
  | (k, r, ts) :: rest, key => if k = key then some (r, ts) else cacheFind rest key

/-- Dictionary assignment `self.query_cache[cache_key] = (ref, ts)`. -/
def cachePut (c : List CacheEntry) (key : Int) (r : Nat) (ts : Int) : List CacheEntry :=
  (key, r, ts) :: c.filter (fun e => decide (e.1 ≠ key))

/-- `SmartDatabase._clean_cache`: delete every entry older than 3600 s. -/
def cleanCache (now : Int) (c : List CacheEntry) : List CacheEntry :=
  c.filter (fun e => decide (now - e.2.2 ≤ 3600))

/-- The cache-hit test at the top of `SmartDatabase.query`: a stored entry
is returned only while `now - storedAt < ttl`. -/
def cacheFresh (c : List CacheEntry) (key : Int) (ttl now : Int) : Option Nat :=
  match cacheFind c key with
  | some (r, ts) => if now - ts < ttl then some r else none
  | none => none

/-- `SmartDatabase.connect`: rate limiting, optional SSH tunnel, database
connect.  `tunnelOk` and `dbOk` are the oracles for `tunnel.start()` and
`pyodbc.connect(..)`.  The Python method returns `self.conn` or `None`;
callers read the `conn` flag of the state, so only the state is returned. -/
def connect (tunnelOk dbOk : Bool) (now : Int) (st : SDB) : SDB :=
  if st.use_demo then st
  else if now - st.last_query_time < 5 then st
  else
    let st1 := { st with last_query_time := now }
    if st1.use_ssh then
      let st2 := { st1 with tunnel := some false }
      if tunnelOk then
        let st3 := { st2 with tunnel := some true }
        if dbOk then { st3 with conn := true, msg := "✅ Connected to database" }
        else { st3 with use_demo := true, msg := demoMsg }
      else { st2 with use_demo := true, msg := demoMsg }
    else
      if dbOk then { st1 with conn := true, msg := "✅ Connected to database" }
      else { st1 with use_demo := true, msg := demoMsg }

/-- The demo-data path of `SmartDatabase.query`: generate, cache a copy,
return the generated object. -/
def demoStore (today now : Int) (sql : String) (key : Int) (st : SDB) (h : Heap) :
    Nat × SDB × Heap :=
  let res := alloc h (genDemo today now sql)
  let cpy := alloc res.1 (readRef res.1 res.2)
  (res.2, { st with cache := cachePut st.cache key cpy.2 now }, cpy.1)

/-- The successful real-query path of `SmartDatabase.query`: cache a copy
of the frame read from the database, clean old entries, return the frame. -/
def realStore (df : DataFrame) (key now : Int) (st : SDB) (h : Heap) :
    Nat × SDB × Heap :=
  let res := alloc h df
  let cpy := alloc res.1 df
  (res.2, { st with cache := cleanCache now (cachePut st.cache key cpy.2 now) }, cpy.1)

/-- `SmartDatabase.query(sql, cache_ttl)`: cache lookup, demo fallback,
real query with exception fallback.  Returns the reference handed to the
caller together with the updated state and heap. -/
def query (hashF : String → Int) (realDb : String → Except String DataFrame)
    (tunnelOk dbOk : Bool) (today now : Int)
    (st : SDB) (h : Heap) (sql : String) (ttl : Int) : Nat × SDB × Heap :=
  let key := hashF sql
  match cacheFresh st.cache key ttl now with
  | some ref =>
      let cpy := alloc h (readRef h ref)
      (cpy.2, st, cpy.1)
  | none =>
      if st.use_demo then demoStore today now sql key st h
      else
        let st1 := if st.conn then st else connect tunnelOk dbOk now st
        if st1.conn then
          match realDb sql with
          | .ok df => realStore df key now st1 h
          | .error _ => demoStore today now sql key { st1 with use_demo := true } h
        else demoStore today now sql key st1 h

/-- `SmartDatabase.get_status`. -/
def get_status (st : SDB) : String := st.msg

/-- `SmartDatabase.is_demo`. -/
def is_demo (st : SDB) : Bool := st.use_demo

/-! ## `DatabaseConnector` (src/app.py) -/

/-- The mutable attributes of a `DatabaseConnector` instance; `connection`
is whether a database handle is held, `tunnel` as in `SDB`. -/
structure DBC where
  connection : Bool
  tunnel : Option Bool
  is_connected : Bool
deriving DecidableEq

/-- `DatabaseConnector.connect_with_ssh`: start a tunnel, then connect;
returns the (success, state) outcome.  Any exception is caught and turned
into a `false` result. -/
def connect_with_ssh (tunnelOk dbOk : Bool) (st : DBC) : Bool × DBC :=
  let st1 := { st with tunnel := some false }
  if tunnelOk then
    let st2 := { st1 with tunnel := some true }
    if dbOk then (true, { st2 with connection := true, is_connected := true })
    else (false, st2)
  else (false, st1)

/-- `DatabaseConnector.close`: close the connection if held, stop the
tunnel if held, clear `is_connected`. -/
def close (st : DBC) : DBC :=
  { connection := false,
    tunnel := st.tunnel.map (fun _ => false),
    is_connected := false }

/-! ## `LicenseValidator` (src/app.py) -/

/-- The whitespace class of the first `re.sub(r'\s+', '', key)` (ASCII part
of Python `\s`; every whitespace character is, in any case, also removed by
the second substitution because it is outside the token alphabet). -/
def wsChar (c : Char) : Bool :=
  c == ' ' || c == '\t' || c == '\n' || c == '\r' || c == '\x0b' || c == '\x0c'

/-- The token alphabet kept by `re.sub(r'[^A-Za-z0-9+/=]', '', key)`. -/
def tokenChar (c : Char) : Bool :=
  ('A' ≤ c && c ≤ 'Z') || ('a' ≤ c && c ≤ 'z') || ('0' ≤ c && c ≤ '9') ||
    c == '+' || c == '/' || c == '='

/-- `LicenseValidator._clean_key`: empty-input guard, strip whitespace,
strip everything outside the token alphabet. -/
def cleanKey (key : String) : String :=
  if key = "" then ""
  else String.mk ((key.data.filter (fun c => !(wsChar c))).filter tokenChar)

/-- The `=`-padding step of `validate`: pad to a multiple of 4. -/
def padKey (k : String) : String :=
  let padding := 4 - k.length % 4
  if padding ≠ 4 then k ++ String.mk (List.replicate padding '=') else k

/-- A parsed `YYYYMMDDhhmmss` expiry (the fields of a Python `datetime`). -/
structure DT where
  year : Nat
  month : Nat
  day : Nat
  hour : Nat
  minute : Nat
  second : Nat
deriving DecidableEq

/-- Gregorian leap-year test. -/
def isLeap (y : Nat) : Bool := y % 4 == 0 && (y % 100 != 0 || y % 400 == 0)

/-- Days in a month, as Python's `datetime` validates them. -/
def daysInMonth (y m : Nat) : Nat :=
  if m = 2 then (if isLeap y then 29 else 28)
  else if m = 4 || m = 6 || m = 9 || m = 11 then 30
  else 31

/-- Value of a digit string. -/
def digitsVal (l : List Char) : Nat := l.foldl (fun a c => a * 10 + (c.toNat - 48)) 0

/-- `datetime.strptime(s, "%Y%m%d%H%M%S")` on a 14-character string: with
14 characters every directive must take its maximal width (4+2+2+2+2+2),
all characters must be digits and the fields must be in `datetime`'s valid
ranges (`MINYEAR = 1`); `none` models the raised `ValueError`. -/
def parseExpiry (s : String) : Option DT :=
  let cs := s.data
  if cs.length = 14 ∧ cs.all Char.isDigit then
    let y := digitsVal (cs.take 4)
    let mo := digitsVal ((cs.drop 4).take 2)
    let d := digitsVal ((cs.drop 6).take 2)
    let hh := digitsVal ((cs.drop 8).take 2)
    let mi := digitsVal ((cs.drop 10).take 2)
    let ss := digitsVal ((cs.drop 12).take 2)
    if 1 ≤ y ∧ 1 ≤ mo ∧ mo ≤ 12 ∧ 1 ≤ d ∧ d ≤ daysInMonth y mo ∧
        hh ≤ 23 ∧ mi ≤ 59 ∧ ss ≤ 59 then
      some ⟨y, mo, d, hh, mi, ss⟩
    else none
  else none

/-- Days before the first of the month within a year. -/
def monthOffset (leap : Bool) (m : Nat) : Nat :=
  [0, 31, 59, 90, 120, 151, 181, 212, 243, 273, 304, 334].getD (m - 1) 0 +
    (if leap && decide (2 < m) then 1 else 0)

/-- Days in years `1 .. y-1` of the proleptic Gregorian calendar. -/
def daysBeforeYear (y : Nat) : Nat :=
  365 * (y - 1) + ((y - 1) / 4 - (y - 1) / 100 + (y - 1) / 400)

/-- A `datetime` as seconds on a linear scale (rata-die days times 86400);
`datetime` comparison and subtraction are carried out on this scale. -/
def dtToSec (t : DT) : Int :=
  ((daysBeforeYear t.year + monthOffset (isLeap t.year) t.month + (t.day - 1)) * 86400
    + t.hour * 3600 + t.minute * 60 + t.second : Nat)

/-- Two-digit day for `strftime('%d ..')`. -/
def pad2 (n : Nat) : String := if n < 10 then "0" ++ toString n else toString n

/-- `%B`: full English month name. -/
def monthName (m : Nat) : String :=
  ["January", "February", "March", "April", "May", "June", "July",
   "August", "September", "October", "November", "December"].getD (m - 1) ""

/-- `expiry.strftime('%d %B %Y')`. -/
def fmtDate (t : DT) : String :=
  pad2 t.day ++ " " ++ monthName t.month ++ " " ++ toString t.year

/-- The payload dictionary returned on successful validation. -/
structure Payload where
  email : String
  expiry : DT
  days_left : Int
  license_key : String
  environment : String
deriving DecidableEq

/-- Python `str.split(sep)` for a one-character separator, on the list of
characters (used for `decoded.split('|')`). -/
def splitOnChar (sep : Char) : List Char → List (List Char)
  | [] => [[]]
  | c :: rest =>
      match splitOnChar sep rest with
      | [] => if c == sep then [[], []] else [[c]]
      | h :: t => if c == sep then [] :: h :: t else (c :: h) :: t

/-- `decoded.split('|')` as strings. -/
def splitPy (sep : Char) (s : String) : List String :=
  (splitOnChar sep s.data).map String.mk

/-- Python `c in s` for a character and a string. -/
def hasChar (s : String) (c : Char) : Bool := s.data.contains c

/-- The body of `LicenseValidator.validate` after `_clean_key`: length
check, padding, base64 decode (oracle `dec`, `none` = raised exception),
structure, email, signature, expiry format, expiry parse, expiry
comparison; `md5hex` is the `hashlib.md5(..).hexdigest()` oracle and
`secret` the instance's `SECRET_KEY`.  (The source's `data` variable,
`f"{email}|{expiry_str}"`, is inlined into the hashed string.) -/
def validateClean (dec : String → Option String) (md5hex : String → String)
    (secret env : String) (now : Int) (k0 : String) : Bool × (String ⊕ Payload) :=
  if k0 = "" ∨ k0.length < 20 then (false, .inl "❌ Invalid license key format")
  else
    match dec (padKey k0) with
    | none => (false, .inl "❌ Invalid license encoding")
    | some decoded =>
      match splitPy '|' decoded with
      | [email, expiry_str, signature] =>
        if !(hasChar email '@') || !(hasChar email '.') then
          (false, .inl "❌ Invalid email in license")
        else
          if signature ≠ (md5hex (email ++ "|" ++ expiry_str ++ secret)).take 8 then
            (false, .inl "❌ License validation failed")
          else if expiry_str.length ≠ 14 then (false, .inl "❌ Invalid expiry format")
          else
            match parseExpiry expiry_str with
            | none => (false, .inl "❌ Invalid expiry date")
            | some expiry =>
              if now > dtToSec expiry then
                (false, .inl ("⏰ License expired on " ++ fmtDate expiry))
              else
                (true, .inr ⟨email, expiry, (dtToSec expiry - now) / 86400,
                  padKey k0, env⟩)
      | _ => (false, .inl "❌ Invalid license format")

/-- `LicenseValidator.validate(license_key)`: clean, then run the checks. -/
def validate (dec : String → Option String) (md5hex : String → String)
    (secret env : String) (now : Int) (key : String) : Bool × (String ⊕ Payload) :=
  validateClean dec md5hex secret env now (cleanKey key)

/-- The user-facing rejection reasons `validate` can produce. -/
def knownMsg (m : String) : Prop :=
  m = "❌ Invalid license key format" ∨ m = "❌ Invalid license encoding" ∨
  m = "❌ Invalid license format" ∨ m = "❌ Invalid email in license" ∨
  m = "❌ License validation failed" ∨ m = "❌ Invalid expiry format" ∨
  m = "❌ Invalid expiry date" ∨ ∃ e, m = "⏰ License expired on " ++ fmtDate e

/-- The noise-insertion relation of claim C9: the second list is the first
with whitespace or non-alphabet characters inserted at arbitrary places. -/
inductive InsNoise : List Char → List Char → Prop where
  | nil : InsNoise [] []
  | keep (c : Char) (xs ys : List Char) : InsNoise xs ys → InsNoise (c :: xs) (c :: ys)
  | junk (c : Char) (xs ys : List Char) :
      tokenChar c = false → InsNoise xs ys → InsNoise xs (c :: ys)

/-! ## Concrete instances used by closed counterexamples and witnesses -/

/-- A one-cell result set standing for data read from the real database. -/
def dfX : DataFrame := ⟨["x"], [[.i 1]]⟩

/-- A demo-mode state holding a cached real result for key 0 stored at
time 95 (the situation right after a failover). -/
def stHit : SDB := ⟨true, true, false, none, 0, [(0, 0, 95)], ""⟩

/-- A demo-mode state whose cache holds an entry stored at time 0 under
key 99. -/
def stStale : SDB := ⟨true, true, false, none, 0, [(99, 0, 0)], ""⟩

/-- A connected real-mode state with an empty cache, except for one stale
entry under key 99 stored at time 0. -/
def stConn : SDB := ⟨false, true, true, none, 0, [(99, 0, 0)], ""⟩

/-- A real-mode state at the start of a session: no connection yet, one
stale cache entry under key 99 stored at time 0 (the first query must
connect in-query before reading the database). -/
def stNoConn : SDB := ⟨false, true, false, none, 0, [(99, 0, 0)], ""⟩

/-- A decode oracle accepting every string as a fixed well-signed triple. -/
def decGood : String → Option String := fun _ => some "a@b.c|20991231235959|abcdefgh"

/-- A decode oracle accepting every string as a triple whose signature
field does not match the md5 oracle below. -/
def decBad : String → Option String := fun _ => some "a@b.c|BAD|zz"

/-- A hash oracle whose hexdigest starts with `abcdefgh`. -/
def md5c : String → String := fun _ => "abcdefgh9999"

/-- A 24-character key of token-alphabet characters. -/
def keyA : String := "AAAAAAAAAAAAAAAAAAAAAAAA"

/-- The payload `validate` produces for the witness token under `decGood`
and `md5c` at `now = 0`. -/
def pay0 : Payload :=
  ⟨"a@b.c", ⟨2099, 12, 31, 23, 59, 59⟩, 766643, keyA, "PRODUCTION"⟩

end Klink

namespace Klink

/-! ## Heap and cache lemmas -/

theorem readRef_appendR (h l : Heap) (i : Nat) :
    readRef (h ++ l) (h.length + i) = readRef l i := by
  induction h with
  | nil => simp [readRef]
  | cons a t ih =>
      have hx : (a :: t).length + i = (t.length + i) + 1 := by
        simp [List.length_cons]; omega
      rw [hx]
      simpa [readRef, List.getD] using ih

theorem readRef_snoc (h : Heap) (d : DataFrame) : readRef (h ++ [d]) h.length = d := by
  simpa using readRef_appendR h [d] 0

theorem readRef_two0 (h : Heap) (a b : DataFrame) : readRef (h ++ [a, b]) h.length = a := by
  simpa using readRef_appendR h [a, b] 0

theorem readRef_two1 (h : Heap) (a b : DataFrame) :
    readRef (h ++ [a, b]) (h.length + 1) = b := by
  simpa [readRef, List.getD] using readRef_appendR h [a, b] 1

theorem readRef_append_lt (h l : Heap) (r : Nat) (hr : r < h.length) :
    readRef (h ++ l) r = readRef h r := by
  simp [readRef, List.getD_eq_getElem?_getD, List.getElem?_append, hr]

theorem writeRef_length (h : Heap) (r : Nat) (d : DataFrame) :
    (writeRef h r d).length = h.length := by
  simp [writeRef]

theorem readRef_set_ne (h : Heap) (r1 r2 : Nat) (d : DataFrame) (hne : r2 ≠ r1) :
    readRef (writeRef h r1 d) r2 = readRef h r2 := by
  simp [writeRef, readRef, List.getD_eq_getElem?_getD, List.getElem?_set_ne (Ne.symm hne)]

theorem cacheFind_mem {c : List CacheEntry} {key : Int} {r : Nat} {ts : Int}
    (hf : cacheFind c key = some (r, ts)) : (key, r, ts) ∈ c := by
  induction c with
  | nil => simp [cacheFind] at hf
  | cons e rest ih =>
      obtain ⟨k, r0, ts0⟩ := e
      by_cases hk : k = key
      · subst hk
        simp [cacheFind] at hf
        simp [hf.1, hf.2]
      · simp [cacheFind, hk] at hf
        exact List.mem_cons_of_mem _ (ih hf)

theorem cacheFresh_mem {c : List CacheEntry} {key : Int} {ttl now : Int} {ref : Nat}
    (hc : cacheFresh c key ttl now = some ref) :
    ∃ ts, (key, ref, ts) ∈ c ∧ now - ts < ttl := by
  unfold cacheFresh at hc
  cases hf : cacheFind c key with
  | none => rw [hf] at hc; simp at hc
  | some p =>
      obtain ⟨r, ts⟩ := p
      rw [hf] at hc
      by_cases hlt : now - ts < ttl
      · simp [hlt] at hc
        exact ⟨ts, by simpa [hc] using cacheFind_mem hf, hlt⟩
      · simp [hlt] at hc

theorem cacheFind_put (c : List CacheEntry) (key : Int) (r : Nat) (ts : Int) :
    cacheFind (cachePut c key r ts) key = some (r, ts) := by
  simp [cachePut, cacheFind]

theorem cacheFresh_put_self (c : List CacheEntry) (key : Int) (r : Nat) (ttl now : Int)
    (httl : 0 < ttl) : cacheFresh (cachePut c key r now) key ttl now = some r := by
  unfold cacheFresh
  rw [cacheFind_put]
  simp [httl]

theorem mem_cachePut {e : CacheEntry} {c : List CacheEntry} {key : Int} {r : Nat} {ts : Int}
    (he : e ∈ cachePut c key r ts) : e = (key, r, ts) ∨ e ∈ c := by
  rcases List.mem_cons.mp he with h1 | h1
  · exact Or.inl h1
  · exact Or.inr (List.mem_of_mem_filter h1)

theorem mem_cleanCache {e : CacheEntry} {c : List CacheEntry} {now : Int}
    (he : e ∈ cleanCache now c) : e ∈ c ∧ now - e.2.2 ≤ 3600 := by
  have h1 := List.mem_filter.mp he
  exact ⟨h1.1, by simpa using h1.2⟩

theorem cleanCache_cons_fresh (now : Int) (key : Int) (r : Nat) (c : List CacheEntry) :
    cleanCache now ((key, r, now) :: c) = (key, r, now) :: cleanCache now c := by
  simp [cleanCache, List.filter_cons]

/-! ## `query` path lemmas -/

theorem demoStore_eq (today now : Int) (sql : String) (key : Int) (st : SDB) (h : Heap) :
    demoStore today now sql key st h =
      (h.length,
       { st with cache := cachePut st.cache key (h.length + 1) now },
       h ++ [genDemo today now sql, genDemo today now sql]) := by
  simp [demoStore, alloc, readRef_snoc]

theorem realStore_eq (df : DataFrame) (key now : Int) (st : SDB) (h : Heap) :
    realStore df key now st h =
      (h.length,
       { st with cache := cleanCache now (cachePut st.cache key (h.length + 1) now) },
       h ++ [df, df]) := by
  simp [realStore, alloc]

theorem query_hit (hashF : String → Int) (realDb : String → Except String DataFrame)
    (tunnelOk dbOk : Bool) (today now : Int) (st : SDB) (h : Heap) (sql : String)
    (ttl : Int) (ref : Nat)
    (hc : cacheFresh st.cache (hashF sql) ttl now = some ref) :
    query hashF realDb tunnelOk dbOk today now st h sql ttl =
      (h.length, st, h ++ [readRef h ref]) := by
  simp [query, hc, alloc]

theorem query_miss_demo (hashF : String → Int) (realDb : String → Except String DataFrame)
    (tunnelOk dbOk : Bool) (today now : Int) (st : SDB) (h : Heap) (sql : String)
    (ttl : Int) (hc : cacheFresh st.cache (hashF sql) ttl now = none)
    (hd : st.use_demo = true) :
    query hashF realDb tunnelOk dbOk today now st h sql ttl =
      demoStore today now sql (hashF sql) st h := by
  simp [query, hc, hd]

theorem query_miss_ok (hashF : String → Int) (realDb : String → Except String DataFrame)
    (tunnelOk dbOk : Bool) (today now : Int) (st : SDB) (h : Heap) (sql : String)
    (ttl : Int) (df : DataFrame)
    (hc : cacheFresh st.cache (hashF sql) ttl now = none)
    (hd : st.use_demo = false) (hco : st.conn = true) (hok : realDb sql = .ok df) :
    query hashF realDb tunnelOk dbOk today now st h sql ttl =
      realStore df (hashF sql) now st h := by
  simp [query, hc, hd, hco, hok]

theorem query_miss_err (hashF : String → Int) (realDb : String → Except String DataFrame)
    (tunnelOk dbOk : Bool) (today now : Int) (st : SDB) (h : Heap) (sql : String)
    (ttl : Int) (e : String)
    (hc : cacheFresh st.cache (hashF sql) ttl now = none)
    (hd : st.use_demo = false) (hco : st.conn = true) (herr : realDb sql = .error e) :
    query hashF realDb tunnelOk dbOk today now st h sql ttl =
      demoStore today now sql (hashF sql) { st with use_demo := true } h := by
  simp [query, hc, hd, hco, herr]

theorem query_miss_connect_ok (hashF : String → Int)
    (realDb : String → Except String DataFrame) (tunnelOk dbOk : Bool)
    (today now : Int) (st : SDB) (h : Heap) (sql : String) (ttl : Int) (df : DataFrame)
    (hc : cacheFresh st.cache (hashF sql) ttl now = none)
    (hd : st.use_demo = false) (hco : st.conn = false)
    (hcc : (connect tunnelOk dbOk now st).conn = true) (hok : realDb sql = .ok df) :
    query hashF realDb tunnelOk dbOk today now st h sql ttl =
      realStore df (hashF sql) now (connect tunnelOk dbOk now st) h := by
  simp [query, hc, hd, hco, hcc, hok]

theorem query_miss_connect_err (hashF : String → Int)
    (realDb : String → Except String DataFrame) (tunnelOk dbOk : Bool)
    (today now : Int) (st : SDB) (h : Heap) (sql : String) (ttl : Int) (e : String)
    (hc : cacheFresh st.cache (hashF sql) ttl now = none)
    (hd : st.use_demo = false) (hco : st.conn = false)
    (hcc : (connect tunnelOk dbOk now st).conn = true) (herr : realDb sql = .error e) :
    query hashF realDb tunnelOk dbOk today now st h sql ttl =
      demoStore today now sql (hashF sql)
        { connect tunnelOk dbOk now st with use_demo := true } h := by
  simp [query, hc, hd, hco, hcc, herr]

theorem query_miss_connect_fail (hashF : String → Int)
    (realDb : String → Except String DataFrame) (tunnelOk dbOk : Bool)
    (today now : Int) (st : SDB) (h : Heap) (sql : String) (ttl : Int)
    (hc : cacheFresh st.cache (hashF sql) ttl now = none)
    (hd : st.use_demo = false) (hco : st.conn = false)
    (hcc : (connect tunnelOk dbOk now st).conn = false) :
    query hashF realDb tunnelOk dbOk today now st h sql ttl =
      demoStore today now sql (hashF sql) (connect tunnelOk dbOk now st) h := by
  simp [query, hc, hd, hco, hcc]

/-! ## Claim theorems -/

/-- Claim C1: `SmartDatabase.query` always returns a tabular result set and
never propagates an error: whatever the oracles for `hash`, `pd.read_sql`
(including a raised exception), tunnel start and database connect do, the
returned reference is a valid DataFrame in the final heap, and its contents
are either the synthesized demo data for the query text, or a result set
the real database actually produced, or a fresh cached entry's value —
so every internal failure is absorbed by substituting demo data. -/
theorem C1_query_always_returns (hashF : String → Int)
    (realDb : String → Except String DataFrame) (tunnelOk dbOk : Bool)
    (today now : Int) (st : SDB) (h : Heap) (sql : String) (ttl : Int) :
    (query hashF realDb tunnelOk dbOk today now st h sql ttl).1 <
      (query hashF realDb tunnelOk dbOk today now st h sql ttl).2.2.length ∧
    (readRef (query hashF realDb tunnelOk dbOk today now st h sql ttl).2.2
        (query hashF realDb tunnelOk dbOk today now st h sql ttl).1 =
          genDemo today now sql ∨
      (∃ df, realDb sql = .ok df ∧
        readRef (query hashF realDb tunnelOk dbOk today now st h sql ttl).2.2
          (query hashF realDb tunnelOk dbOk today now st h sql ttl).1 = df) ∨
      (∃ ref, cacheFresh st.cache (hashF sql) ttl now = some ref ∧
        readRef (query hashF realDb tunnelOk dbOk today now st h sql ttl).2.2
          (query hashF realDb tunnelOk dbOk today now st h sql ttl).1 =
            readRef h ref)) := by
  cases hc : cacheFresh st.cache (hashF sql) ttl now with
  | some ref =>
      rw [query_hit hashF realDb tunnelOk dbOk today now st h sql ttl ref hc]
      refine ⟨by simp, Or.inr (Or.inr ⟨ref, rfl, ?_⟩)⟩
      exact readRef_snoc h (readRef h ref)
  | none =>
      cases hd : st.use_demo with
      | true =>
          rw [query_miss_demo hashF realDb tunnelOk dbOk today now st h sql ttl hc hd,
            demoStore_eq]
          exact ⟨by simp, Or.inl (readRef_two0 h _ _)⟩
      | false =>
          cases hco : st.conn with
          | true =>
              cases hok : realDb sql with
              | ok df =>
                  rw [query_miss_ok hashF realDb tunnelOk dbOk today now st h sql ttl df
                    hc hd hco hok, realStore_eq]
                  exact ⟨by simp, Or.inr (Or.inl ⟨df, rfl, readRef_two0 h _ _⟩)⟩
              | error e =>
                  rw [query_miss_err hashF realDb tunnelOk dbOk today now st h sql ttl e
                    hc hd hco hok, demoStore_eq]
                  exact ⟨by simp, Or.inl (readRef_two0 h _ _)⟩
          | false =>
              cases hcc : (connect tunnelOk dbOk now st).conn with
              | true =>
                  cases hok : realDb sql with
                  | ok df =>
                      rw [query_miss_connect_ok hashF realDb tunnelOk dbOk today now st h
                        sql ttl df hc hd hco hcc hok, realStore_eq]
                      exact ⟨by simp, Or.inr (Or.inl ⟨df, rfl, readRef_two0 h _ _⟩)⟩
                  | error e =>
                      rw [query_miss_connect_err hashF realDb tunnelOk dbOk today now st h
                        sql ttl e hc hd hco hcc hok, demoStore_eq]
                      exact ⟨by simp, Or.inl (readRef_two0 h _ _)⟩
              | false =>
                  rw [query_miss_connect_fail hashF realDb tunnelOk dbOk today now st h
                    sql ttl hc hd hco hcc, demoStore_eq]
                  exact ⟨by simp, Or.inl (readRef_two0 h _ _)⟩

/-- Claim C2 (counterexample): "every subsequent query uses only
synthesized data" fails on the code — in DEMO mode (`use_demo = true`) a
repeated query whose key is still fresh in the cache returns the cached
value, which here is a previously stored real result (`dfX`) and not the
synthesized data for that query text (the empty frame). -/
theorem C2_cex_demo_cache_hit_returns_real_data :
    stHit.use_demo = true ∧
    readRef (query (fun _ => 0) (fun _ => .error "") true true 0 100 stHit [dfX] "q" 300).2.2
      (query (fun _ => 0) (fun _ => .error "") true true 0 100 stHit [dfX] "q" 300).1 = dfX ∧
    genDemo 0 100 "q" = ⟨[], []⟩ ∧
    dfX ≠ (⟨[], []⟩ : DataFrame) := by
  refine ⟨rfl, by decide, by decide, by decide⟩

/-- Claim C2 (amended): DEMO mode is absorbing — `use_demo` is set at
construction on config failure, and once it is true no operation of
`SmartDatabase` resets it: `connect` returns the state unchanged, `query`
leaves `use_demo` true (so a later unrelated query still runs in DEMO with
no new failure), `is_demo` reports true; and every query that misses the
cache returns synthesized data.  (Cache hits may still serve a previously
cached real result within its TTL, which is what the original claim's
"uses only synthesized data" overlooks.) -/
theorem C2_demo_mode_absorbing (hashF : String → Int)
    (realDb : String → Except String DataFrame) (tunnelOk dbOk ssh : Bool)
    (today now : Int) (st : SDB) (h : Heap) (sql : String) (ttl : Int)
    (hd : st.use_demo = true) :
    (mkSDB false ssh).use_demo = true ∧
    connect tunnelOk dbOk now st = st ∧
    (query hashF realDb tunnelOk dbOk today now st h sql ttl).2.1.use_demo = true ∧
    is_demo st = true ∧
    (cacheFresh st.cache (hashF sql) ttl now = none →
      readRef (query hashF realDb tunnelOk dbOk today now st h sql ttl).2.2
        (query hashF realDb tunnelOk dbOk today now st h sql ttl).1 =
          genDemo today now sql) := by
  refine ⟨by simp [mkSDB], by simp [connect, hd], ?_, by simp [is_demo, hd], ?_⟩
  · cases hc : cacheFresh st.cache (hashF sql) ttl now with
    | some ref =>
        rw [query_hit hashF realDb tunnelOk dbOk today now st h sql ttl ref hc]
        exact hd
    | none =>
        rw [query_miss_demo hashF realDb tunnelOk dbOk today now st h sql ttl hc hd,
          demoStore_eq]
        exact hd
  · intro hc
    rw [query_miss_demo hashF realDb tunnelOk dbOk today now st h sql ttl hc hd,
      demoStore_eq]
    exact readRef_two0 h _ _

/-- Witness for C2: the amended statement instantiated at a concrete
demo-mode state (config failure at construction). -/
theorem C2_demo_mode_absorbing_witness :
    (mkSDB false true).use_demo = true ∧
    connect true true 10 (mkSDB false true) = mkSDB false true ∧
    (query (fun _ => 0) (fun _ => .ok dfX) true true 0 10
      (mkSDB false true) [] "q" 300).2.1.use_demo = true ∧
    is_demo (mkSDB false true) = true ∧
    (cacheFresh (mkSDB false true).cache 0 300 10 = none →
      readRef (query (fun _ => 0) (fun _ => .ok dfX) true true 0 10
          (mkSDB false true) [] "q" 300).2.2
        (query (fun _ => 0) (fun _ => .ok dfX) true true 0 10
          (mkSDB false true) [] "q" 300).1 = genDemo 0 10 "q") :=
  C2_demo_mode_absorbing (fun _ => 0) (fun _ => .ok dfX) true true true 0 10
    (mkSDB false true) [] "q" 300 (by decide)

/-- Claim C5 (counterexample): a put performed on the demo path does not
purge the cache — querying a fresh key at time 4000 in demo mode inserts
the new entry but leaves the entry stored at time 0 (age 4000 s > 3600 s)
in the cache. -/
theorem C5_cex_demo_put_keeps_stale_entry :
    (query (fun _ => 1) (fun _ => .error "") true true 0 4000 stStale [dfX] "x" 300).2.1.cache
        = [(1, 2, 4000), (99, 0, 0)] ∧
    (99, 0, 0) ∈ (query (fun _ => 1) (fun _ => .error "") true true 0 4000 stStale [dfX]
        "x" 300).2.1.cache ∧
    (4000 : Int) - 0 > 3600 := by
  refine ⟨by decide, by decide, by decide⟩

/-- Claim C5 (amended): only the successful real-database path of `query`
runs `_clean_cache`; after every real-result put no cache entry is older
than 3600 s.  The hypothesis `hco` is exactly the code's condition for
taking the real branch — `self.conn` already holds a connection, or the
in-query `connect()` just obtained one (the first query of a session) —
so the theorem covers both ways a real-result put happens.  Puts of
synthesized demo results skip the purge (see the counterexample), so the
original "for puts of real results and of synthesized demo results alike"
does not hold. -/
theorem C5_real_put_purges_stale (hashF : String → Int)
    (realDb : String → Except String DataFrame) (tunnelOk dbOk : Bool)
    (today now : Int) (st : SDB) (h : Heap) (sql : String) (ttl : Int) (df : DataFrame)
    (hc : cacheFresh st.cache (hashF sql) ttl now = none)
    (hd : st.use_demo = false)
    (hco : (if st.conn then st else connect tunnelOk dbOk now st).conn = true)
    (hok : realDb sql = .ok df) :
    ((query hashF realDb tunnelOk dbOk today now st h sql ttl).2.1.cache.all
      (fun e => decide (now - e.2.2 ≤ 3600))) = true := by
  by_cases hcn : st.conn = true
  · rw [query_miss_ok hashF realDb tunnelOk dbOk today now st h sql ttl df hc hd hcn hok,
      realStore_eq]
    rw [List.all_eq_true]
    intro e he
    simpa using (mem_cleanCache he).2
  · have hcf : st.conn = false := by simpa using hcn
    rw [if_neg hcn] at hco
    rw [query_miss_connect_ok hashF realDb tunnelOk dbOk today now st h sql ttl df hc hd
      hcf hco hok, realStore_eq]
    rw [List.all_eq_true]
    intro e he
    simpa using (mem_cleanCache he).2

/-- Witness for C5: the amended statement at the first query of a session —
no connection is held yet, the in-query `connect` succeeds, and after the
real-result put the stale entry stored at time 0 is gone. -/
theorem C5_real_put_purges_stale_witness :
    ((query (fun _ => 1) (fun _ => .ok dfX) true true 0 4000 stNoConn []
        "x" 300).2.1.cache.all
      (fun e => decide ((4000 : Int) - e.2.2 ≤ 3600))) = true :=
  C5_real_put_purges_stale (fun _ => 1) (fun _ => .ok dfX) true true 0 4000 stNoConn []
    "x" 300 dfX (by decide) (by decide) (by decide) rfl

/-- Claim C7 (code bug): when the SSH tunnel starts but the database
connection fails, neither `SmartDatabase.connect` nor
`DatabaseConnector.connect_with_ssh` stops the tunnel — after the failed
connect the state still holds a started tunnel (`some true`), contradicting
"the tunnel is released before connect returns".  `DatabaseConnector.close`
does release it, confirming the paired-lifetime intent. -/
theorem C7_failed_connect_leaks_started_tunnel :
    (connect true false 10 (mkSDB true true)).tunnel = some true ∧
    (connect true false 10 (mkSDB true true)).conn = false ∧
    (connect true false 10 (mkSDB true true)).use_demo = true ∧
    (connect_with_ssh true false ⟨false, none, false⟩).2.tunnel = some true ∧
    (connect_with_ssh true false ⟨false, none, false⟩).1 = false ∧
    (close (connect_with_ssh true false ⟨false, none, false⟩).2).tunnel = some false := by
  refine ⟨by decide, by decide, by decide, by decide, by decide, by decide⟩

/-- Claim C8 (counterexample): the claim's classifier — "contains 'top 10'
or 'stockist'" — does not match the code: the query text
"yesterday stockist" contains "stockist", yet `_generate_demo_data`
dispatches it to the earlier yesterday branch and returns 1 row, not 10. -/
theorem C8_cex_substring_classifier_shadowed :
    containsStr (strLower "yesterday stockist") "stockist" = true ∧
    (genDemo 0 0 "yesterday stockist").rows.length = 1 := by
  refine ⟨by decide, by decide⟩

/-- Claim C8 (amended): a query text reaches the top-stockists branch only
when it contains "top 10" or "stockist" (case-insensitively) AND none of
the earlier branches match (today∧newtrh, yesterday, month∧newtrh,
"30 days"/"dateadd"); every such text yields exactly 10 rows whose
`total_bv` (volume) column is strictly descending, and the synthesizer is
deterministic for the category — the result does not depend on the current
date or time. -/
theorem C8_top10_branch_rows (sql : String) (t1 n1 t2 n2 : Int)
    (h1 : (containsStr (strLower sql) "today" && containsStr (strLower sql) "newtrh")
        = false)
    (h2 : containsStr (strLower sql) "yesterday" = false)
    (h3 : (containsStr (strLower sql) "month" && containsStr (strLower sql) "newtrh")
        = false)
    (h4 : (containsStr (strLower sql) "30 days" || containsStr (strLower sql) "dateadd")
        = false)
    (h5 : (containsStr (strLower sql) "top 10" || containsStr (strLower sql) "stockist")
        = true) :
    genDemo t1 n1 sql = topStockistsDF ∧
    (genDemo t1 n1 sql).rows.length = 10 ∧
    List.Pairwise (fun a b => bvOf b < bvOf a) (genDemo t1 n1 sql).rows ∧
    genDemo t1 n1 sql = genDemo t2 n2 sql := by
  have hg : ∀ t n : Int, genDemo t n sql = topStockistsDF := by
    intro t n
    simp [genDemo, h1, h2, h3, h4, h5]
  refine ⟨hg t1 n1, ?_, ?_, (hg t1 n1).trans (hg t2 n2).symm⟩
  · rw [hg t1 n1]; decide
  · rw [hg t1 n1]; decide

/-- Witness for C8: the amended statement at the concrete query text
"top 10 stockist" and two different date/time pairs. -/
theorem C8_top10_branch_rows_witness :
    genDemo 3 5 "top 10 stockist" = topStockistsDF ∧
    (genDemo 3 5 "top 10 stockist").rows.length = 10 ∧
    List.Pairwise (fun a b => bvOf b < bvOf a) (genDemo 3 5 "top 10 stockist").rows ∧
    genDemo 3 5 "top 10 stockist" = genDemo 7 11 "top 10 stockist" :=
  C8_top10_branch_rows "top 10 stockist" 3 5 7 11 (by decide) (by decide) (by decide)
    (by decide) (by decide)

/-! ## Post-conditions of one `query` call (for claim C6) -/

theorem connect_cache (tunnelOk dbOk : Bool) (now : Int) (st : SDB) :
    (connect tunnelOk dbOk now st).cache = st.cache := by
  unfold connect
  cases hs : st.use_ssh <;> split_ifs <;> simp [hs]

theorem store_post_demo (today now : Int) (sql : String) (key : Int) (st1 : SDB)
    (h : Heap) (ttl : Int) (hrefs : ∀ e ∈ st1.cache, e.2.1 < h.length) (httl : 0 < ttl) :
    (demoStore today now sql key st1 h).1 = h.length ∧
    h.length < (demoStore today now sql key st1 h).2.2.length ∧
    (∀ e ∈ (demoStore today now sql key st1 h).2.1.cache,
      e.2.1 < (demoStore today now sql key st1 h).2.2.length ∧ e.2.1 ≠ h.length) ∧
    ∃ refc, cacheFresh (demoStore today now sql key st1 h).2.1.cache key ttl now
        = some refc ∧ refc ≠ h.length ∧
      readRef (demoStore today now sql key st1 h).2.2 refc =
        readRef (demoStore today now sql key st1 h).2.2 h.length := by
  rw [demoStore_eq]
  refine ⟨rfl, by simp, ?_, ⟨h.length + 1, ?_, by omega, ?_⟩⟩
  · intro e he
    rcases mem_cachePut he with h1 | h1
    · subst h1; constructor <;> simp
    · have := hrefs e h1
      constructor
      · simp; omega
      · omega
  · exact cacheFresh_put_self st1.cache key (h.length + 1) ttl now httl
  · rw [readRef_two0, readRef_two1]

theorem store_post_real (df : DataFrame) (key now : Int) (st1 : SDB)
    (h : Heap) (ttl : Int) (hrefs : ∀ e ∈ st1.cache, e.2.1 < h.length) (httl : 0 < ttl) :
    (realStore df key now st1 h).1 = h.length ∧
    h.length < (realStore df key now st1 h).2.2.length ∧
    (∀ e ∈ (realStore df key now st1 h).2.1.cache,
      e.2.1 < (realStore df key now st1 h).2.2.length ∧ e.2.1 ≠ h.length) ∧
    ∃ refc, cacheFresh (realStore df key now st1 h).2.1.cache key ttl now = some refc ∧
      refc ≠ h.length ∧
      readRef (realStore df key now st1 h).2.2 refc =
        readRef (realStore df key now st1 h).2.2 h.length := by
  rw [realStore_eq]
  refine ⟨rfl, by simp, ?_, ⟨h.length + 1, ?_, by omega, ?_⟩⟩
  · intro e he
    rcases mem_cachePut (mem_cleanCache he).1 with h1 | h1
    · subst h1; constructor <;> simp
    · have := hrefs e h1
      constructor
      · simp; omega
      · omega
  · show cacheFresh (cleanCache now (cachePut st1.cache key (h.length + 1) now))
        key ttl now = some (h.length + 1)
    unfold cachePut
    rw [cleanCache_cons_fresh]
    unfold cacheFresh
    simp [cacheFind, httl]
  · rw [readRef_two0, readRef_two1]

theorem query_post (hashF : String → Int) (realDb : String → Except String DataFrame)
    (tunnelOk dbOk : Bool) (today now : Int) (st : SDB) (h : Heap) (sql : String)
    (ttl : Int) (hrefs : ∀ e ∈ st.cache, e.2.1 < h.length) (httl : 0 < ttl) :
    (query hashF realDb tunnelOk dbOk today now st h sql ttl).1 = h.length ∧
    h.length < (query hashF realDb tunnelOk dbOk today now st h sql ttl).2.2.length ∧
    (∀ e ∈ (query hashF realDb tunnelOk dbOk today now st h sql ttl).2.1.cache,
      e.2.1 < (query hashF realDb tunnelOk dbOk today now st h sql ttl).2.2.length ∧
      e.2.1 ≠ h.length) ∧
    ∃ refc, cacheFresh (query hashF realDb tunnelOk dbOk today now st h sql ttl).2.1.cache
        (hashF sql) ttl now = some refc ∧ refc ≠ h.length ∧
      readRef (query hashF realDb tunnelOk dbOk today now st h sql ttl).2.2 refc =
        readRef (query hashF realDb tunnelOk dbOk today now st h sql ttl).2.2 h.length := by
  cases hc : cacheFresh st.cache (hashF sql) ttl now with
  | some ref =>
      obtain ⟨ts, hmem, hts⟩ := cacheFresh_mem hc
      have href : ref < h.length := hrefs _ hmem
      rw [query_hit hashF realDb tunnelOk dbOk today now st h sql ttl ref hc]
      refine ⟨rfl, by simp, ?_, ⟨ref, hc, by omega, ?_⟩⟩
      · intro e he
        have := hrefs e he
        constructor
        · simp; omega
        · omega
      · rw [readRef_snoc, readRef_append_lt h _ ref href]
  | none =>
      cases hd : st.use_demo with
      | true =>
          rw [query_miss_demo hashF realDb tunnelOk dbOk today now st h sql ttl hc hd]
          exact store_post_demo today now sql (hashF sql) st h ttl hrefs httl
      | false =>
          cases hco : st.conn with
          | true =>
              cases hok : realDb sql with
              | ok df =>
                  rw [query_miss_ok hashF realDb tunnelOk dbOk today now st h sql ttl df
                    hc hd hco hok]
                  exact store_post_real df (hashF sql) now st h ttl hrefs httl
              | error e =>
                  rw [query_miss_err hashF realDb tunnelOk dbOk today now st h sql ttl e
                    hc hd hco hok]
                  exact store_post_demo today now sql (hashF sql) _ h ttl hrefs httl
          | false =>
              cases hcc : (connect tunnelOk dbOk now st).conn with
              | true =>
                  cases hok : realDb sql with
                  | ok df =>
                      rw [query_miss_connect_ok hashF realDb tunnelOk dbOk today now st h
                        sql ttl df hc hd hco hcc hok]
                      refine store_post_real df (hashF sql) now _ h ttl ?_ httl
                      rw [connect_cache]; exact hrefs
                  | error e =>
                      rw [query_miss_connect_err hashF realDb tunnelOk dbOk today now st h
                        sql ttl e hc hd hco hcc hok]
                      refine store_post_demo today now sql (hashF sql) _ h ttl ?_ httl
                      show ∀ e ∈ (connect tunnelOk dbOk now st).cache, e.2.1 < h.length
                      rw [connect_cache]; exact hrefs
              | false =>
                  rw [query_miss_connect_fail hashF realDb tunnelOk dbOk today now st h
                    sql ttl hc hd hco hcc]
                  refine store_post_demo today now sql (hashF sql) _ h ttl ?_ httl
                  rw [connect_cache]; exact hrefs

/-- Claim C6: cache round-trip with defensive copies.  Provided every
cached reference is a live object (`hrefs`) and the TTL is positive, after
any `query` call: (i) the reference handed to the caller is aliased by no
cache entry; (ii) an immediately repeated `query` of the same text returns
a value structurally equal to the one just returned; (iii) mutating the
returned object in place (`writeRef` at the returned reference) does not
change what the repeated `query` of that text returns. -/
theorem C6_cache_roundtrip_defensive_copy (hashF : String → Int)
    (realDb : String → Except String DataFrame) (tunnelOk dbOk : Bool)
    (today now : Int) (st : SDB) (h : Heap) (sql : String) (ttl : Int)
    (hrefs : ∀ e ∈ st.cache, e.2.1 < h.length) (httl : 0 < ttl) :
    (∀ e ∈ (query hashF realDb tunnelOk dbOk today now st h sql ttl).2.1.cache,
      e.2.1 ≠ (query hashF realDb tunnelOk dbOk today now st h sql ttl).1) ∧
    readRef (query hashF realDb tunnelOk dbOk today now
          (query hashF realDb tunnelOk dbOk today now st h sql ttl).2.1
          (query hashF realDb tunnelOk dbOk today now st h sql ttl).2.2 sql ttl).2.2
        (query hashF realDb tunnelOk dbOk today now
          (query hashF realDb tunnelOk dbOk today now st h sql ttl).2.1
          (query hashF realDb tunnelOk dbOk today now st h sql ttl).2.2 sql ttl).1 =
      readRef (query hashF realDb tunnelOk dbOk today now st h sql ttl).2.2
        (query hashF realDb tunnelOk dbOk today now st h sql ttl).1 ∧
    (∀ d, readRef (query hashF realDb tunnelOk dbOk today now
          (query hashF realDb tunnelOk dbOk today now st h sql ttl).2.1
          (writeRef (query hashF realDb tunnelOk dbOk today now st h sql ttl).2.2
            (query hashF realDb tunnelOk dbOk today now st h sql ttl).1 d) sql ttl).2.2
        (query hashF realDb tunnelOk dbOk today now
          (query hashF realDb tunnelOk dbOk today now st h sql ttl).2.1
          (writeRef (query hashF realDb tunnelOk dbOk today now st h sql ttl).2.2
            (query hashF realDb tunnelOk dbOk today now st h sql ttl).1 d) sql ttl).1 =
      readRef (query hashF realDb tunnelOk dbOk today now st h sql ttl).2.2
        (query hashF realDb tunnelOk dbOk today now st h sql ttl).1) := by
  obtain ⟨h1eq, hlen, hentries, refc, hfresh, hrne, hval⟩ :=
    query_post hashF realDb tunnelOk dbOk today now st h sql ttl hrefs httl
  refine ⟨?_, ?_, ?_⟩
  · intro e he
    rw [h1eq]
    exact (hentries e he).2
  · rw [query_hit hashF realDb tunnelOk dbOk today now _ _ sql ttl refc hfresh,
      readRef_snoc, h1eq]
    exact hval
  · intro d
    rw [query_hit hashF realDb tunnelOk dbOk today now _ _ sql ttl refc hfresh,
      readRef_snoc, h1eq]
    rw [readRef_set_ne _ _ _ d hrne]
    exact hval

/-- Witness for C6: the statement instantiated at a freshly constructed
state with an empty cache and empty heap. -/
theorem C6_cache_roundtrip_defensive_copy_witness :
    (∀ e ∈ (query (fun _ => 0) (fun _ => .ok dfX) true true 0 10
        (mkSDB true true) [] "q" 300).2.1.cache,
      e.2.1 ≠ (query (fun _ => 0) (fun _ => .ok dfX) true true 0 10
        (mkSDB true true) [] "q" 300).1) ∧
    readRef (query (fun _ => 0) (fun _ => .ok dfX) true true 0 10
          (query (fun _ => 0) (fun _ => .ok dfX) true true 0 10
            (mkSDB true true) [] "q" 300).2.1
          (query (fun _ => 0) (fun _ => .ok dfX) true true 0 10
            (mkSDB true true) [] "q" 300).2.2 "q" 300).2.2
        (query (fun _ => 0) (fun _ => .ok dfX) true true 0 10
          (query (fun _ => 0) (fun _ => .ok dfX) true true 0 10
            (mkSDB true true) [] "q" 300).2.1
          (query (fun _ => 0) (fun _ => .ok dfX) true true 0 10
            (mkSDB true true) [] "q" 300).2.2 "q" 300).1 =
      readRef (query (fun _ => 0) (fun _ => .ok dfX) true true 0 10
          (mkSDB true true) [] "q" 300).2.2
        (query (fun _ => 0) (fun _ => .ok dfX) true true 0 10
          (mkSDB true true) [] "q" 300).1 ∧
    (∀ d, readRef (query (fun _ => 0) (fun _ => .ok dfX) true true 0 10
          (query (fun _ => 0) (fun _ => .ok dfX) true true 0 10
            (mkSDB true true) [] "q" 300).2.1
          (writeRef (query (fun _ => 0) (fun _ => .ok dfX) true true 0 10
              (mkSDB true true) [] "q" 300).2.2
            (query (fun _ => 0) (fun _ => .ok dfX) true true 0 10
              (mkSDB true true) [] "q" 300).1 d) "q" 300).2.2
        (query (fun _ => 0) (fun _ => .ok dfX) true true 0 10
          (query (fun _ => 0) (fun _ => .ok dfX) true true 0 10
            (mkSDB true true) [] "q" 300).2.1
          (writeRef (query (fun _ => 0) (fun _ => .ok dfX) true true 0 10
              (mkSDB true true) [] "q" 300).2.2
            (query (fun _ => 0) (fun _ => .ok dfX) true true 0 10
              (mkSDB true true) [] "q" 300).1 d) "q" 300).1 =
      readRef (query (fun _ => 0) (fun _ => .ok dfX) true true 0 10
          (mkSDB true true) [] "q" 300).2.2
        (query (fun _ => 0) (fun _ => .ok dfX) true true 0 10
          (mkSDB true true) [] "q" 300).1) :=
  C6_cache_roundtrip_defensive_copy (fun _ => 0) (fun _ => .ok dfX) true true 0 10
    (mkSDB true true) [] "q" 300 (by simp [mkSDB]) (by decide)

end Klink

namespace Klink

/-! ## `_clean_key` lemmas (for claim C9) -/

theorem ws_not_token (c : Char) (hw : wsChar c = true) : tokenChar c = false := by
  unfold wsChar at hw
  simp only [Bool.or_eq_true, beq_iff_eq] at hw
  rcases hw with ((((h | h) | h) | h) | h) | h <;> subst h <;> decide

theorem filter_ws_token (l : List Char) :
    (l.filter (fun c => !(wsChar c))).filter tokenChar = l.filter tokenChar := by
  induction l with
  | nil => rfl
  | cons c t ih =>
      by_cases hw : wsChar c = true
      · have ht : tokenChar c = false := ws_not_token c hw
        simp [List.filter_cons, hw, ht, ih]
      · have hw1 : wsChar c = false := by simpa using hw
        cases htc : tokenChar c <;> simp [List.filter_cons, hw1, htc, ih]

theorem cleanKey_eq (s : String) : cleanKey s = String.mk (s.data.filter tokenChar) := by
  unfold cleanKey
  by_cases hs : s = ""
  · subst hs; rfl
  · rw [if_neg hs, filter_ws_token]

theorem insNoise_filter {xs ys : List Char} (h : InsNoise xs ys) :
    ys.filter tokenChar = xs.filter tokenChar := by
  induction h with
  | nil => rfl
  | keep c xs ys h ih => cases htc : tokenChar c <;> simp [List.filter_cons, htc, ih]
  | junk c xs ys hj h ih => simp [List.filter_cons, hj, ih]

/-- Claim C9: validation is invariant under injected noise — inserting any
whitespace or non-token-alphabet characters anywhere in a license string
does not change the result of `validate`, because `_clean_key` strips
exactly those characters before any other step. -/
theorem C9_validate_invariant_under_noise (dec : String → Option String)
    (md5hex : String → String) (secret env : String) (now : Int)
    (orig noisy : String) (h : InsNoise orig.data noisy.data) :
    validate dec md5hex secret env now noisy = validate dec md5hex secret env now orig := by
  unfold validate
  rw [cleanKey_eq, cleanKey_eq, insNoise_filter h]

/-- Witness for C9: inserting a space and a `!` into "AB" leaves the
validation result unchanged. -/
theorem C9_validate_invariant_under_noise_witness :
    validate decGood md5c "klink2024secure" "PRODUCTION" 0 "A B!" =
      validate decGood md5c "klink2024secure" "PRODUCTION" 0 "AB" :=
  C9_validate_invariant_under_noise decGood md5c "klink2024secure" "PRODUCTION" 0 "AB"
    "A B!"
    (InsNoise.keep 'A' _ _ (InsNoise.junk ' ' _ _ (by decide)
      (InsNoise.keep 'B' _ _ (InsNoise.junk '!' _ _ (by decide) InsNoise.nil))))

/-- Claim C3 (counterexample): no demo-token bypass exists in
`LicenseValidator.validate`.  With a decode oracle that rejects every
input (and the shipped secret), *every* license key is rejected: the
success flag is the constant-false function of the key.  A hard-coded
demo token that "short-circuits steps 2–7" would, by definition, succeed
before base64 decoding is consulted — so its existence is refuted. -/
theorem C3_cex_no_decode_bypass :
    (fun key => (validate (fun _ => none) (fun _ => "") "klink2024secure"
        "PRODUCTION" 0 key).1) = (fun _ => false) := by
  funext key
  by_cases h1 : cleanKey key = "" ∨ (cleanKey key).length < 20
  · simp [validate, validateClean, h1]
  · simp [validate, validateClean, h1]

/-- Claim C3 (amended): `validate` contains no demo-token exception path —
every successful validation passes all of steps 2–7: the cleaned key is
long enough, base64 decoding succeeds, the decoded text has exactly 3
fields, the email contains `@` and `.`, the signature equals the first 8
characters of the md5 hexdigest of `email|expiry` plus the secret, the
expiry is a well-formed 14-character timestamp not earlier than `now`,
and the returned days-left is computed from the expiry and `now` (never a
fixed 365). -/
theorem C3_no_demo_bypass (dec : String → Option String) (md5hex : String → String)
    (secret env : String) (now : Int) (key : String) (p : Payload)
    (hs : validate dec md5hex secret env now key = (true, .inr p)) :
    ∃ decoded email expiry_str sg expiry,
      ¬ (cleanKey key = "" ∨ (cleanKey key).length < 20) ∧
      dec (padKey (cleanKey key)) = some decoded ∧
      splitPy '|' decoded = [email, expiry_str, sg] ∧
      hasChar email '@' = true ∧ hasChar email '.' = true ∧
      sg = (md5hex (email ++ "|" ++ expiry_str ++ secret)).take 8 ∧
      expiry_str.length = 14 ∧
      parseExpiry expiry_str = some expiry ∧
      ¬ (now > dtToSec expiry) ∧
      p = ⟨email, expiry, (dtToSec expiry - now) / 86400, padKey (cleanKey key), env⟩ := by
  unfold validate validateClean at hs
  split at hs
  · simp at hs
  · rename_i h1
    split at hs
    · simp at hs
    · rename_i decoded hdec
      split at hs
      · rename_i em xs sg hl
        split at hs
        · simp at hs
        · rename_i hem
          split at hs
          · simp at hs
          · rename_i hsg
            split at hs
            · simp at hs
            · rename_i hxl
              split at hs
              · simp at hs
              · rename_i expiry hpe
                split at hs
                · simp at hs
                · rename_i hexp
                  simp only [Prod.mk.injEq, Sum.inr.injEq, true_and] at hs
                  have h45 : hasChar em '@' = true ∧ hasChar em '.' = true := by
                    revert hem
                    cases hb : hasChar em '@' <;> cases hc : hasChar em '.' <;> decide
                  refine ⟨decoded, em, xs, sg, expiry, h1, hdec, hl, h45.1, h45.2,
                    not_not.mp hsg, not_not.mp hxl, hpe, hexp, hs.symm⟩
      · rename_i hno
        simp at hs

/-- Witness for C3 (amended): a concrete key accepted under concrete
decode/hash oracles; the theorem exhibits all the checks it passed. -/
theorem C3_no_demo_bypass_witness :
    ∃ decoded email expiry_str sg expiry,
      ¬ (cleanKey keyA = "" ∨ (cleanKey keyA).length < 20) ∧
      decGood (padKey (cleanKey keyA)) = some decoded ∧
      splitPy '|' decoded = [email, expiry_str, sg] ∧
      hasChar email '@' = true ∧ hasChar email '.' = true ∧
      sg = (md5c (email ++ "|" ++ expiry_str ++ "klink2024secure")).take 8 ∧
      expiry_str.length = 14 ∧
      parseExpiry expiry_str = some expiry ∧
      ¬ ((0 : Int) > dtToSec expiry) ∧
      pay0 = ⟨email, expiry, (dtToSec expiry - 0) / 86400, padKey (cleanKey keyA),
        "PRODUCTION"⟩ :=
  C3_no_demo_bypass decGood md5c "klink2024secure" "PRODUCTION" 0 keyA pay0 (by decide)

/-- Claim C4: for any token whose cleaned form is at least 20 characters,
decodes to exactly 3 `|`-separated fields with a plausible email, a
signature field differing from the first 8 hex characters of the md5 of
`email|expiry` plus the secret makes `validate` fail with exactly the
signature-mismatch reason — regardless of the expiry field's contents, so
the signature comparison precedes the expiry-format and expiry-time
checks. -/
theorem C4_tampered_signature_fails (dec : String → Option String)
    (md5hex : String → String) (secret env : String) (now : Int) (key : String)
    (decoded email xs sg : String)
    (h1 : 20 ≤ (cleanKey key).length)
    (h2 : dec (padKey (cleanKey key)) = some decoded)
    (h3 : splitPy '|' decoded = [email, xs, sg])
    (h4 : hasChar email '@' = true) (h5 : hasChar email '.' = true)
    (h6 : sg ≠ (md5hex (email ++ "|" ++ xs ++ secret)).take 8) :
    validate dec md5hex secret env now key =
      (false, .inl "❌ License validation failed") := by
  have hne : ¬ (cleanKey key = "" ∨ (cleanKey key).length < 20) := by
    rintro (hk | hk)
    · rw [hk] at h1
      exact absurd h1 (by decide)
    · omega
  unfold validate validateClean
  rw [if_neg hne]
  simp only [h2]
  simp only [h3]
  simp [h4, h5, h6]

/-- Witness for C4: a concrete tampered token — the decoded signature
field `zz` does not match the expected `abcdefgh`, and validation reports
exactly the signature failure even though the expiry field is garbage. -/
theorem C4_tampered_signature_fails_witness :
    validate decBad md5c "klink2024secure" "PRODUCTION" 0 keyA =
      (false, .inl "❌ License validation failed") :=
  C4_tampered_signature_fails decBad md5c "klink2024secure" "PRODUCTION" 0 keyA
    "a@b.c|BAD|zz" "a@b.c" "BAD" "zz" (by decide) rfl (by decide) (by decide) (by decide)
    (by decide)

/-- Claim C10: `validate` is total — for every input string and every
behaviour of the decode and hash oracles (a `none` from the decoder models
a raised exception) it returns a `(success, payload)` pair: either success
with a structured payload, or failure carrying one of the known rejection
reasons.  (In the embedding every internal step is totalized, so the outer
`except` handler of the source has nothing left to catch.) -/
theorem C10_validate_total (dec : String → Option String) (md5hex : String → String)
    (secret env : String) (now : Int) (key : String) :
    (∃ p, validate dec md5hex secret env now key = (true, .inr p)) ∨
    (∃ m, validate dec md5hex secret env now key = (false, .inl m) ∧ knownMsg m) := by
  by_cases h1 : cleanKey key = "" ∨ (cleanKey key).length < 20
  · have hv : validate dec md5hex secret env now key =
        (false, .inl "❌ Invalid license key format") := by
      unfold validate validateClean
      rw [if_pos h1]
    exact Or.inr ⟨_, hv, Or.inl rfl⟩
  · cases hdec : dec (padKey (cleanKey key)) with
    | none =>
        have hv : validate dec md5hex secret env now key =
            (false, .inl "❌ Invalid license encoding") := by
          unfold validate validateClean
          rw [if_neg h1]
          simp only [hdec]
        exact Or.inr ⟨_, hv, Or.inr (Or.inl rfl)⟩
    | some decoded =>
        rcases hl : splitPy '|' decoded with - | ⟨em, - | ⟨xs, - | ⟨sg, - | ⟨e4, rest⟩⟩⟩⟩
        · have hv : validate dec md5hex secret env now key =
              (false, .inl "❌ Invalid license format") := by
            unfold validate validateClean
            rw [if_neg h1]
            simp only [hdec]
            simp only [hl]
          exact Or.inr ⟨_, hv, Or.inr (Or.inr (Or.inl rfl))⟩
        · have hv : validate dec md5hex secret env now key =
              (false, .inl "❌ Invalid license format") := by
            unfold validate validateClean
            rw [if_neg h1]
            simp only [hdec]
            simp only [hl]
          exact Or.inr ⟨_, hv, Or.inr (Or.inr (Or.inl rfl))⟩
        · have hv : validate dec md5hex secret env now key =
              (false, .inl "❌ Invalid license format") := by
            unfold validate validateClean
            rw [if_neg h1]
            simp only [hdec]
            simp only [hl]
          exact Or.inr ⟨_, hv, Or.inr (Or.inr (Or.inl rfl))⟩
        · by_cases hem : (!(hasChar em '@') || !(hasChar em '.')) = true
          · have hv : validate dec md5hex secret env now key =
                (false, .inl "❌ Invalid email in license") := by
              unfold validate validateClean
              rw [if_neg h1]
              simp only [hdec]
              simp only [hl]
              rw [if_pos hem]
            exact Or.inr ⟨_, hv, Or.inr (Or.inr (Or.inr (Or.inl rfl)))⟩
          · by_cases hsg : sg ≠ (md5hex (em ++ "|" ++ xs ++ secret)).take 8
            · have hv : validate dec md5hex secret env now key =
                  (false, .inl "❌ License validation failed") := by
                unfold validate validateClean
                rw [if_neg h1]
                simp only [hdec]
                simp only [hl]
                rw [if_neg hem, if_pos hsg]
              exact Or.inr ⟨_, hv, Or.inr (Or.inr (Or.inr (Or.inr (Or.inl rfl))))⟩
            · by_cases hxl : xs.length ≠ 14
              · have hv : validate dec md5hex secret env now key =
                    (false, .inl "❌ Invalid expiry format") := by
                  unfold validate validateClean
                  rw [if_neg h1]
                  simp only [hdec]
                  simp only [hl]
                  rw [if_neg hem, if_neg hsg, if_pos hxl]
                exact Or.inr ⟨_, hv,
                  Or.inr (Or.inr (Or.inr (Or.inr (Or.inr (Or.inl rfl)))))⟩
              · cases hpe : parseExpiry xs with
                | none =>
                    have hv : validate dec md5hex secret env now key =
                        (false, .inl "❌ Invalid expiry date") := by
                      unfold validate validateClean
                      rw [if_neg h1]
                      simp only [hdec]
                      simp only [hl]
                      rw [if_neg hem, if_neg hsg, if_neg hxl]
                      simp only [hpe]
                    exact Or.inr ⟨_, hv,
                      Or.inr (Or.inr (Or.inr (Or.inr (Or.inr (Or.inr (Or.inl rfl))))))⟩
                | some expiry =>
                    by_cases hexp : now > dtToSec expiry
                    · have hv : validate dec md5hex secret env now key =
                          (false, .inl ("⏰ License expired on " ++ fmtDate expiry)) := by
                        unfold validate validateClean
                        rw [if_neg h1]
                        simp only [hdec]
                        simp only [hl]
                        rw [if_neg hem, if_neg hsg, if_neg hxl]
                        simp only [hpe]
                        rw [if_pos hexp]
                      exact Or.inr ⟨_, hv,
                        Or.inr (Or.inr (Or.inr (Or.inr (Or.inr (Or.inr (Or.inr
                          ⟨expiry, rfl⟩))))))⟩
                    · have hv : validate dec md5hex secret env now key =
                          (true, .inr ⟨em, expiry, (dtToSec expiry - now) / 86400,
                            padKey (cleanKey key), env⟩) := by
                        unfold validate validateClean
                        rw [if_neg h1]
                        simp only [hdec]
                        simp only [hl]
                        rw [if_neg hem, if_neg hsg, if_neg hxl]
                        simp only [hpe]
                        rw [if_neg hexp]
                      exact Or.inl ⟨_, hv⟩
        · have hv : validate dec md5hex secret env now key =
              (false, .inl "❌ Invalid license format") := by
            unfold validate validateClean
            rw [if_neg h1]
            simp only [hdec]
            simp only [hl]
          exact Or.inr ⟨_, hv, Or.inr (Or.inr (Or.inl rfl))⟩

end Klink
